import Mathlib

/-!
Shallow embedding of the core of `src/Calculator.py` (a Flet GUI around a
differential-equation pipeline) and proofs about the claims of the
specification.

Conventions of the embedding:
* Python floats are modelled by `PyFloat`: an exact rational (`fin`), the two
  infinities (`inf`), or `nan`.  Rounding of decimal literals to binary
  doubles and overflow saturation at 1e308 are outside the scope of every
  claim and are not modelled: a finite value is kept as an exact rational.
* The numeric domain of expression evaluation is `ℚ`.  The four whitelisted
  math functions (`numpy.sin/cos/exp/log`) and the power operator are
  platform code, not code of this repository; they enter the model as an
  abstract interpretation `MathIntp`, and every theorem quantifies over it.
* The SciPy integrator `solve_ivp` is platform code as well; it enters the
  model as a `SolverFun` argument, and theorems quantify over it.
* The CPython expression parser invoked by `eval` is platform code; it enters
  the model as a `pyParse : String → Option PyExpr` argument (`none` models a
  `SyntaxError`).  What the repository itself does with the parse result is
  modelled faithfully below (`pyEvalLambda`, `resolver_ecuacion`).
-/

/-- Model of a CPython float value: finite (kept exact as a rational),
positive or negative infinity, or nan. -/
inductive PyFloat
  | fin (q : ℚ)
  | inf (pos : Bool)
  | nan
  deriving DecidableEq

/-- IEEE-754 comparison `a <= b` as Python evaluates it on floats:
any comparison with nan is false; `-inf` is below and `+inf` above
every non-nan value. -/
def pyLe : PyFloat → PyFloat → Bool
  | .nan, _ => false
  | _, .nan => false
  | .inf p, .inf q => !p || q
  | .inf p, .fin _ => !p
  | .fin _, .inf q => q
  | .fin a, .fin b => decide (a ≤ b)

/-- IEEE-754 strict comparison `a < b` on the float model. -/
def pyLt : PyFloat → PyFloat → Bool
  | .nan, _ => false
  | _, .nan => false
  | .inf p, .inf q => !p && q
  | .inf p, .fin _ => !p
  | .fin _, .inf q => q
  | .fin a, .fin b => decide (a < b)

/-- IEEE-754 addition on the float model (numpy semantics: no exception,
`inf + -inf = nan`).  Signed zero is not modelled. -/
def pyAdd : PyFloat → PyFloat → PyFloat
  | .nan, _ => .nan
  | _, .nan => .nan
  | .inf p, .inf q => if p = q then .inf p else .nan
  | .inf p, .fin _ => .inf p
  | .fin _, .inf q => .inf q
  | .fin a, .fin b => .fin (a + b)

/-- IEEE-754 subtraction on the float model. -/
def pySub : PyFloat → PyFloat → PyFloat
  | .nan, _ => .nan
  | _, .nan => .nan
  | .inf p, .inf q => if p = q then .nan else .inf p
  | .inf p, .fin _ => .inf p
  | .fin _, .inf q => .inf (!q)
  | .fin a, .fin b => .fin (a - b)

/-- IEEE-754 multiplication on the float model (`inf * 0 = nan`). -/
def pyMul : PyFloat → PyFloat → PyFloat
  | .nan, _ => .nan
  | _, .nan => .nan
  | .inf p, .inf q => .inf (p == q)
  | .inf p, .fin b => if b = 0 then .nan else .inf (p == decide (0 < b))
  | .fin a, .inf q => if a = 0 then .nan else .inf (q == decide (0 < a))
  | .fin a, .fin b => .fin (a * b)

/-- IEEE-754 division on the float model with numpy array semantics
(division by zero yields an infinity or nan with a warning, it does not
raise).  Signed zero is not modelled, so `x / 0` takes the sign of `x`. -/
def pyDiv : PyFloat → PyFloat → PyFloat
  | .nan, _ => .nan
  | _, .nan => .nan
  | .inf _, .inf _ => .nan
  | .inf p, .fin b => .inf (p == decide (0 ≤ b))
  | .fin _, .inf _ => .fin 0
  | .fin a, .fin b =>
    if b = 0 then (if a = 0 then .nan else .inf (decide (0 < a))) else .fin (a / b)

/-- Whitespace characters stripped by CPython `float(str)`. -/
def isPyWs (c : Char) : Bool :=
  c = ' ' || c = '\t' || c = '\n' || c = '\r' || c = Char.ofNat 11 || c = Char.ofNat 12

/-- Strip leading and trailing whitespace from a character list. -/
def stripWs (cs : List Char) : List Char :=
  ((cs.dropWhile isPyWs).reverse.dropWhile isPyWs).reverse

/-- Value of a list of decimal digit characters. -/
def digitsVal (cs : List Char) : ℕ :=
  cs.foldl (fun acc c => 10 * acc + (c.toNat - 48)) 0

/-- Lower-case a character list (for the case-insensitive `inf`, `infinity`
and `nan` spellings accepted by CPython `float`). -/
def lowerChars (cs : List Char) : List Char :=
  cs.map Char.toLower

/-- Parse the exponent tail of a float literal (after the `e`/`E`):
an optional sign followed by a non-empty digit string. -/
def parseExp (cs : List Char) : Option ℤ :=
  match cs with
  | '+' :: rest => if rest ≠ [] ∧ rest.all Char.isDigit then some (digitsVal rest) else none
  | '-' :: rest => if rest ≠ [] ∧ rest.all Char.isDigit then some (-(digitsVal rest : ℤ)) else none
  | rest => if rest ≠ [] ∧ rest.all Char.isDigit then some (digitsVal rest) else none

/-- Parse an unsigned decimal float literal: `digits [. digits] [exp]` or
`. digits [exp]`, as accepted by CPython `float` (digit-group underscores,
a CPython 3.6 extension never produced by the calculator GUI, are omitted). -/
def parseDecimal (cs : List Char) : Option ℚ :=
  let p1 := cs.span Char.isDigit
  let p2 := match p1.2 with
    | '.' :: rest => rest.span Char.isDigit
    | _ => ([], p1.2)
  if p1.1 = [] ∧ p2.1 = [] then none
  else
    let num : ℕ := digitsVal (p1.1 ++ p2.1)
    let den : ℕ := 10 ^ p2.1.length
    match p2.2 with
    | [] => some (mkRat num den)
    | c :: rest =>
      if c = 'e' ∨ c = 'E' then
        (parseExp rest).map (fun e =>
          if 0 ≤ e then mkRat (num * 10 ^ e.toNat) den
          else mkRat num (den * 10 ^ (-e).toNat))
      else none

/-- Model of CPython `float(str)` as used at lines 300-302 of the source:
strips whitespace, accepts an optional sign, the spellings
`inf`/`infinity`/`nan` (case-insensitive), and decimal literals with an
optional fraction and exponent; returns `none` where CPython raises
`ValueError`. -/
def pyFloatOfString (s : String) : Option PyFloat :=
  let cs := stripWs s.data
  let sp : Bool × List Char :=
    match cs with
    | '+' :: rest => (false, rest)
    | '-' :: rest => (true, rest)
    | _ => (false, cs)
  let lb := lowerChars sp.2
  if lb = "inf".data ∨ lb = "infinity".data then some (.inf (!sp.1))
  else if lb = "nan".data then some .nan
  else (parseDecimal sp.2).map (fun q => .fin (if sp.1 then -q else q))

/-- Binary operators of the calculator expression language
(`+ - * / **`, where `**` is produced from `^` at line 277). -/
inductive Op
  | add
  | sub
  | mul
  | div
  | pow
  deriving DecidableEq

/-- Abstract syntax of the Python expressions the calculator can build.
The input field is read-only and filled by buttons whose labels are drawn
from `+ - * / ^ t y ( ) .` , the digits, and `sin( cos( exp( log(`; the
resulting texts are exactly arithmetic expressions over literals, names
(possibly concatenated button letters such as `ty`), binary operators and
one-argument calls.  Python forms that would need characters outside that
alphabet (tuples with `,`, nested lambdas, comprehensions) are not
expressible and hence absent. -/
inductive PyExpr
  | num (q : ℚ)
  | name (n : String)
  | binop (op : Op) (a b : PyExpr)
  | call (g a : PyExpr)
  deriving DecidableEq

/-- Runtime errors an expression evaluation can raise. -/
inductive PyErr
  | nameError (n : String)
  | typeError
  | zeroDivisionError
  deriving DecidableEq

/-- A Python runtime value reachable in the lambda body: a number or a
function object (one of the whitelisted numpy functions or a builtin). -/
inductive PyVal
  | num (q : ℚ)
  | fn (f : ℚ → ℚ)

/-- Abstract interpretation of the platform math functions placed in the
globals dict at lines 284-289 (`numpy.sin/cos/exp/log`) and of the float
power operator.  They are total on floats; their numeric values decide no
claim, so the embedding quantifies over them. -/
structure MathIntp where
  sinF : ℚ → ℚ
  cosF : ℚ → ℚ
  expF : ℚ → ℚ
  logF : ℚ → ℚ
  powF : ℚ → ℚ → ℚ

/-- Modelled from Python semantics: `eval` with a globals dict that lacks
the key `"__builtins__"` inserts the builtins module into it, so every
Python builtin is resolvable from the compiled lambda.  The model carries a
representative fragment (`abs`). -/
def builtinsLookup (n : String) : Option PyVal :=
  if n = "abs" then some (.fn (fun q => if q < 0 then -q else q)) else none

/-- Name resolution against the globals dict passed to `eval` at
lines 283-290: the four whitelisted functions, then (per Python semantics)
the auto-inserted builtins. -/
def globalsLookup (mi : MathIntp) (n : String) : Option PyVal :=
  if n = "sin" then some (.fn mi.sinF)
  else if n = "cos" then some (.fn mi.cosF)
  else if n = "exp" then some (.fn mi.expF)
  else if n = "log" then some (.fn mi.logF)
  else builtinsLookup n

/-- Evaluation of the lambda body at call time, with the parameters `t` and
`y` bound to numbers: Python name resolution (parameters, then globals,
then builtins; an unresolved name raises `NameError`), left-to-right
operand evaluation, `TypeError` on arithmetic with a function object or on
calling a number.  Division by zero is modelled as raising; during
integration `y` is a numpy array and numpy would instead warn and produce
inf/nan, but no claim depends on that distinction. -/
def evalBody (mi : MathIntp) (t y : ℚ) : PyExpr → Except PyErr PyVal
  | .num q => .ok (.num q)
  | .name n =>
    if n = "t" then .ok (.num t)
    else if n = "y" then .ok (.num y)
    else
      match globalsLookup mi n with
      | some v => .ok v
      | none => .error (.nameError n)
  | .binop op a b =>
    match evalBody mi t y a with
    | .error e => .error e
    | .ok (.fn _) => .error .typeError
    | .ok (.num x) =>
      match evalBody mi t y b with
      | .error e => .error e
      | .ok (.fn _) => .error .typeError
      | .ok (.num z) =>
        match op with
        | .add => .ok (.num (x + z))
        | .sub => .ok (.num (x - z))
        | .mul => .ok (.num (x * z))
        | .div => if z = 0 then .error .zeroDivisionError else .ok (.num (x / z))
        | .pow => .ok (.num (mi.powF x z))
  | .call g a =>
    match evalBody mi t y g with
    | .error e => .error e
    | .ok (.num _) => .error .typeError
    | .ok (.fn f) =>
      match evalBody mi t y a with
      | .error e => .error e
      | .ok (.fn _) => .error .typeError
      | .ok (.num q) => .ok (.num (f q))

/-- The closure produced by evaluating `lambda t, y: body`: calling it
evaluates the body with `t` and `y` bound. -/
def mkCallable (mi : MathIntp) (body : PyExpr) : ℚ → ℚ → Except PyErr PyVal :=
  fun t y => evalBody mi t y body

/-- Failures of the `eval` call at lines 282-290 that the source handles:
a `SyntaxError` (line 291) or a `NameError` (line 294). -/
inductive CompileErr
  | malformed
  | nameErr (msg : String)
  deriving DecidableEq

/-- Model of `eval(f"lambda t, y: {expr_str}", globals)` at lines 282-290:
`eval` first parses the string (a malformed expression raises
`SyntaxError`), then evaluates the single expression `lambda t, y: ...`.
Per CPython semantics evaluating a lambda expression constructs the closure
without executing its body, so name resolution is deferred to the first
call; the `CompileErr.nameErr` alternative, handled by the source at
line 294, is never produced for the calculator expressions of `PyExpr`. -/
def pyEvalLambda (mi : MathIntp) (parsed : Option PyExpr) :
    Except CompileErr (ℚ → ℚ → Except PyErr PyVal) :=
  match parsed with
  | none => .error .malformed
  | some body => .ok (mkCallable mi body)

/-- Result object of `scipy.integrate.solve_ivp` as the source consumes it:
the `success` flag (line 322), the final value `sol.y[0][-1]` (line 335)
and the dense interpolant `sol.sol` (lines 146, 347). -/
structure IvpResult where
  success : Bool
  yFinal : ℚ
  denseSol : PyFloat → PyFloat

/-- The SciPy integrator is platform code; the embedding quantifies over
it.  It receives the compiled callable and the (possibly non-finite)
bounds and initial value, and either returns a result object or raises
(propagating, in particular, a `NameError` raised by the callable). -/
abbrev SolverFun :=
  (ℚ → ℚ → Except PyErr PyVal) → PyFloat → PyFloat → PyFloat → Except PyErr IvpResult

/-- The parameters cached alongside the solution at lines 331-333. -/
structure SolutionParams where
  t0 : PyFloat
  tf : PyFloat
  equation : String

/-- The session state of `main`: the closure variables `current_solution`
(line 20) and `solution_params` (line 21). -/
structure SessionState where
  currentSolution : Option IvpResult
  params : SolutionParams

/-- Initial session state (lines 20-21). -/
def initialState : SessionState :=
  ⟨none, ⟨.fin 0, .fin 0, ""⟩⟩

/-- The raw text of the four input fields read by `resolver_ecuacion`. -/
structure Inputs where
  equation : String
  t0 : String
  y0 : String
  tf : String

/-- The user-facing outcome of one `resolver_ecuacion` call: which message
`show_error`/`show_success` displays.  `nameUndefined` is the
`except NameError` branch (lines 294-296), `excCaught` the generic
`except Exception` handler (lines 364-365). -/
inductive Outcome
  | missingFields
  | malformedEquation
  | nameUndefined (msg : String)
  | notANumber
  | invalidRange
  | solveFailed
  | excCaught (e : PyErr)
  | success (yFinal : ℚ)
  deriving DecidableEq

/-- The character rewrite `ecuacion.replace("^", "**")` of line 277. -/
def replaceCaret : List Char → List Char
  | [] => []
  | c :: cs => if c = '^' then '*' :: '*' :: replaceCaret cs else c :: replaceCaret cs

/-- The text handed to `eval` as the lambda body at line 283: the equation
text with `^` rewritten to `**`. -/
def preparedText (equation : String) : String :=
  ⟨replaceCaret equation.data⟩

/-- Lines 307-340 of `resolver_ecuacion`: the range check `tf <= t0`
(line 308), the `solve_ivp` call (line 313, exceptions propagating to the
generic handler), the `sol.success` check (line 322), and on success the
state update (lines 327-333) and the success message (line 336).  The
in-process png plotting that follows (lines 343-362) is presentation I/O
with no effect on the session state and is outside the model. -/
def solveStage (solver : SolverFun) (f : ℚ → ℚ → Except PyErr PyVal) (eqText : String)
    (t0v y0v tfv : PyFloat) (st : SessionState) : SessionState × Outcome :=
  if pyLe tfv t0v then (st, .invalidRange)
  else
    match solver f t0v y0v tfv with
    | .error e => (st, .excCaught e)
    | .ok sol =>
      if sol.success then
        (⟨some sol, ⟨t0v, tfv, eqText⟩⟩, .success sol.yFinal)
      else (st, .solveFailed)

/-- Model of `resolver_ecuacion` (lines 269-365): the empty-field check
(line 272), the `^` to `**` rewrite (line 277), the `eval` of the lambda
(lines 280-296), the float conversions (lines 298-305), then `solveStage`.
`pyParse` is the CPython expression parser applied to the rewritten text. -/
def resolver_ecuacion (pyParse : String → Option PyExpr) (mi : MathIntp)
    (solver : SolverFun) (inp : Inputs) (st : SessionState) : SessionState × Outcome :=
  if inp.equation = "" ∨ inp.t0 = "" ∨ inp.y0 = "" ∨ inp.tf = "" then
    (st, .missingFields)
  else
    match pyEvalLambda mi (pyParse (preparedText inp.equation)) with
    | .error .malformed => (st, .malformedEquation)
    | .error (.nameErr m) => (st, .nameUndefined m)
    | .ok f =>
      match pyFloatOfString inp.t0, pyFloatOfString inp.y0, pyFloatOfString inp.tf with
      | some t0v, some y0v, some tfv => solveStage solver f inp.equation t0v y0v tfv st
      | _, _, _ => (st, .notANumber)

/-- Model of `limpiar_ecuacion` (lines 114-124): unconditionally empties
the stored solution (`current_solution = None`, line 122).  The text-field
clearing is presentation state; `solution_params` is not touched. -/
def limpiar_ecuacion (st : SessionState) : SessionState :=
  ⟨none, st.params⟩

/-- Model of `numpy.linspace(a, b, n)` as used at lines 145 and 346:
`arange(n) * step + start` with `step = (b - a) / (n - 1)`, and the last
entry forced to the stop value when `n > 1`. -/
def pyLinspace (a b : PyFloat) (n : ℕ) : List PyFloat :=
  if n = 0 then []
  else if n = 1 then [a]
  else
    let step := pyDiv (pySub b a) (.fin ((n : ℚ) - 1))
    ((List.range n).map (fun (i : ℕ) => pyAdd (pyMul (.fin (i : ℚ)) step) a)).set (n - 1) b

/-- The sampling contract of the Sampler/Exporter: the uniform grid of
lines 145/346 paired with the dense interpolant evaluated on it
(lines 146/347). -/
def sample (f : PyFloat → PyFloat) (t0v tfv : PyFloat) (n : ℕ) : List (PyFloat × PyFloat) :=
  (pyLinspace t0v tfv n).map (fun tv => (tv, f tv))

/-- CPython `round` to the nearest integer, ties to even (used by
`round(t, 3)` at line 183; binary-double artifacts are not modelled). -/
def pyRoundHalfEven (x : ℚ) : ℤ :=
  let f := Int.floor x
  let r := x - f
  if r < 1 / 2 then f
  else if 1 / 2 < r then f + 1
  else if f % 2 = 0 then f else f + 1

/-- `round(t, 3)` at line 183 on the float model. -/
def pyRound3 : PyFloat → PyFloat
  | .fin q => .fin ((pyRoundHalfEven (q * 1000) : ℚ) / 1000)
  | v => v

/-- `str(float)` as it appears inside the serialized lists.  The decimal
rendering of doubles is presentation formatting no claim depends on;
finite values are rendered as exact rationals. -/
def pyFloatRepr : PyFloat → String
  | .fin q => toString q
  | .inf true => "inf"
  | .inf false => "-inf"
  | .nan => "nan"

/-- `str(list)` of a list of floats (lines 183 and 186). -/
def pyListRepr (l : List PyFloat) : String :=
  "[" ++ String.intercalate ", " (l.map pyFloatRepr) ++ "]"

/-- A single-quote character, spliced into the template strings below. -/
def sqch : String :=
  Char.toString (Char.ofNat 39)

/-- The HTML template of lines 158-225 up to the insertion point of the
equation text (braces that are literal text are escaped). -/
def chartA : String :=
  "\n            <!DOCTYPE html>\n            <html>\n            <head>\n                <title>Gráfica de Ecuación Diferencial</title>\n                <script src=\"https://cdn.jsdelivr.net/npm/chart.js\"></script>\n                <style>\n                    body \x7b font-family: Arial, sans-serif; margin: 20px; \x7d\n                    .container \x7b max-width: 800px; margin: 0 auto; \x7d\n                    h2 \x7b color: #2c3e50; \x7d\n                    .equation \x7b font-style: italic; margin-bottom: 20px; \x7d\n                </style>\n            </head>\n            <body>\n                <div class=\"container\">\n                    <h2>Solución de la Ecuación Diferencial</h2>\n                    <div class=\"equation\">y" ++ sqch ++ " = "

/-- The template between the equation text and the labels list. -/
def chartB : String :=
  "</div>\n                    <canvas id=\"solutionChart\" width=\"800\" height=\"400\"></canvas>\n                </div>\n                \n                <script>\n                    const ctx = document.getElementById(" ++ sqch ++ "solutionChart" ++ sqch ++ ").getContext(" ++ sqch ++ "2d" ++ sqch ++ ");\n                    const chart = new Chart(ctx, \x7b\n                        type: " ++ sqch ++ "line" ++ sqch ++ ",\n                        data: \x7b\n                            labels: "

/-- The template between the labels list and the data list. -/
def chartC : String :=
  ",\n                            datasets: [\x7b\n                                label: " ++ sqch ++ "y(t)" ++ sqch ++ ",\n                                data: "

/-- The template after the data list, to the end of the document. -/
def chartD : String :=
  ",\n                                borderColor: " ++ sqch ++ "rgba(65, 105, 225, 1)" ++ sqch ++ ",\n                                backgroundColor: " ++ sqch ++ "rgba(65, 105, 225, 0.1)" ++ sqch ++ ",\n                                borderWidth: 2,\n                                tension: 0.3,\n                                pointRadius: 0\n                            \x7d]\n                        \x7d,\n                        options: \x7b\n                            responsive: true,\n                            plugins: \x7b\n                                title: \x7b\n                                    display: true,\n                                    text: " ++ sqch ++ "Solución de la Ecuación Diferencial" ++ sqch ++ "\n                                \x7d,\n                                tooltip: \x7b\n                                    mode: " ++ sqch ++ "index" ++ sqch ++ ",\n                                    intersect: false,\n                                \x7d\n                            \x7d,\n                            scales: \x7b\n                                x: \x7b\n                                    title: \x7b\n                                        display: true,\n                                        text: " ++ sqch ++ "t" ++ sqch ++ "\n                                    \x7d\n                                \x7d,\n                                y: \x7b\n                                    title: \x7b\n                                        display: true,\n                                        text: " ++ sqch ++ "y(t)" ++ sqch ++ "\n                                    \x7d\n                                \x7d\n                            \x7d\n                        \x7d\n                    \x7d);\n                </script>\n            </body>\n            </html>\n            "

/-- The chart payload of lines 158-225: the f-string `html_content`, with
the equation text, the labels list and the data list spliced in verbatim
(the source performs no escaping). -/
def chartPayload (ecuacion labels data : String) : String :=
  chartA ++ ecuacion ++ chartB ++ labels ++ chartC ++ data ++ chartD

/-- Model of `crear_grafica_externa` (lines 126-235): returns `None`
without a stored solution (line 133), otherwise samples the dense solution
on the 500-point grid (lines 145-146) and builds the HTML payload
(lines 158-225).  The temp-file I/O and matplotlib rendering are
presentation I/O outside the model. -/
def crear_grafica_externa (st : SessionState) : Option String :=
  match st.currentSolution with
  | none => none
  | some sol =>
    let t_vals := pyLinspace st.params.t0 st.params.tf 500
    let y_vals := t_vals.map sol.denseSol
    some (chartPayload st.params.equation (pyListRepr (t_vals.map pyRound3)) (pyListRepr y_vals))

/-- Errors of the export entry point. -/
inductive SessionErr
  | noSolution
  | generationFailed
  deriving DecidableEq

/-- Model of `mostrar_grafica_externa` (lines 237-267): fails when no
solution is stored (lines 238-240, the message at line 239), otherwise
returns the artifact built by `crear_grafica_externa` (or the
generation-failure message of line 256 when it returned `None`). -/
def mostrar_grafica_externa (st : SessionState) : Except SessionErr String :=
  match st.currentSolution with
  | none => .error .noSolution
  | some _ =>
    match crear_grafica_externa st with
    | some payload => .ok payload
    | none => .error .generationFailed

/-- The sampling step of lines 145-146 as a state transformer: it reads
`current_solution` and `solution_params` and writes neither (the source
assigns no closure variable there), which the model records by returning
the state unchanged. -/
def sampleST (st : SessionState) (n : ℕ) : List (PyFloat × PyFloat) × SessionState :=
  (match st.currentSolution with
   | some sol => sample sol.denseSol st.params.t0 st.params.tf n
   | none => [], st)

/-- The sampling contract checked for claim C7, for a solution over a
finite interval `[a, b]`: the 500-sample list has length 500; its t-values
are exactly the uniform grid `i * (b - a)/499 + a`; the first and last
samples sit at `t0` and `tf` with the dense solution evaluated there;
consecutive t-values differ by the constant step `(b - a)/499`; the
t-values are strictly increasing; and every sample pairs its t-value with
the dense solution at that t-value. -/
def C7Prop (f : PyFloat → PyFloat) (a b : ℚ) : Prop :=
  (sample f (.fin a) (.fin b) 500).length = 500 ∧
  ((sample f (.fin a) (.fin b) 500).map Prod.fst
      = (List.range 500).map (fun (i : ℕ) => PyFloat.fin ((i : ℚ) * ((b - a) / 499) + a))) ∧
  (sample f (.fin a) (.fin b) 500)[0]? = some (.fin a, f (.fin a)) ∧
  (sample f (.fin a) (.fin b) 500)[499]? = some (.fin b, f (.fin b)) ∧
  (∀ i, i + 1 < 500 →
    ((sample f (.fin a) (.fin b) 500)[i + 1]?).map Prod.fst
      = ((sample f (.fin a) (.fin b) 500)[i]?).map
          (fun p => pyAdd p.1 (.fin ((b - a) / 499)))) ∧
  List.Pairwise (fun p q : PyFloat × PyFloat => pyLt p.1 q.1 = true)
    (sample f (.fin a) (.fin b) 500) ∧
  (∀ p ∈ sample f (.fin a) (.fin b) 500, p.2 = f p.1)

/-- Does the needle match at the head of the haystack? -/
def headMatch : List Char → List Char → Bool
  | [], _ => true
  | _ :: _, [] => false
  | c :: cs, d :: ds => c == d && headMatch cs ds

/-- Tail-recursive scan counting the positions at which the needle
matches. -/
def strCountAux (needle : List Char) : List Char → ℕ → ℕ
  | [], acc => acc
  | c :: cs, acc =>
    if headMatch needle (c :: cs) then strCountAux needle cs (acc + 1)
    else strCountAux needle cs acc

/-- Number of (possibly overlapping) occurrences of a non-empty needle in
a character list. -/
def strCount (hay needle : List Char) : ℕ :=
  strCountAux needle hay 0

/-- Modelled from the spec: a necessary condition for the generated chart
document to be well-formed is that every `script` element opened is also
closed, i.e. the open and close tags are balanced. -/
def specScriptBalanced (s : String) : Bool :=
  strCount s.data "<script".data == strCount s.data "</script".data

/-- A concrete math interpretation for witnesses (its values decide no
property being checked). -/
def miId : MathIntp :=
  ⟨fun q => q, fun q => q, fun q => q, fun q => q, fun a _ => a⟩

/-- A concrete compiled callable for witnesses. -/
def fConst : ℚ → ℚ → Except PyErr PyVal :=
  fun _ _ => .ok (.num 0)

/-- A concrete successful integrator result for witnesses. -/
def ivpOkConst : IvpResult :=
  ⟨true, 42, fun _ => .fin 0⟩

/-- A concrete solver for witnesses that succeeds without invoking the
callable. -/
def solverConstOk : SolverFun :=
  fun _ _ _ _ => .ok ivpOkConst

/-- A concrete solver for witnesses that, like a real integrator, begins by
evaluating the right-hand side and propagates the exception it raises. -/
def solverProbe : SolverFun :=
  fun f _ _ _ =>
    match f 0 0 with
    | .error e => .error e
    | .ok _ => .ok ivpOkConst

/-- A concrete stand-in for the CPython parser on the text `y`. -/
def parseY : String → Option PyExpr :=
  fun _ => some (.name "y")

/-- A concrete stand-in for the CPython parser on a malformed text such as
`((`, on which it raises `SyntaxError`. -/
def parseNone : String → Option PyExpr :=
  fun _ => none

/-- A concrete stand-in for the CPython parser on the text `ty` (producible
in the GUI by pressing the `t` button and then the `y` button). -/
def parseTy : String → Option PyExpr :=
  fun _ => some (.name "ty")

/-- A fresh session state for witnesses. -/
def st0 : SessionState :=
  initialState

/-- Claim C9: in every session state, `limpiar_ecuacion` empties the stored
solution unconditionally, and a following `mostrar_grafica_externa` (the
export entry point) fails with the no-solution error. -/
theorem c9_clear_then_export_noSolution : ∀ st : SessionState,
    (limpiar_ecuacion st).currentSolution = none ∧
    mostrar_grafica_externa (limpiar_ecuacion st) = .error .noSolution := by
  intro st
  exact ⟨rfl, rfl⟩

/-- Claim C3: for every request reaching the range check with
`pyLe tf t0 = true` (the IEEE meaning of `tf <= t0`), the solve stage
fails with the invalid-range outcome and returns the session state
unchanged; the conclusion holds for every solver, so no integration step
is performed. -/
theorem c3_invalidRange_stops_before_integration :
    ∀ (solver : SolverFun) (f : ℚ → ℚ → Except PyErr PyVal) (eqText : String)
      (t0v y0v tfv : PyFloat) (st : SessionState),
      pyLe tfv t0v = true →
      solveStage solver f eqText t0v y0v tfv st = (st, .invalidRange) := by
  intro solver f eqText t0v y0v tfv st h
  unfold solveStage
  simp [h]

/-- Witness for C3 at a concrete input with `t0 = 1`, `tf = 0`. -/
theorem c3_witness :
    solveStage solverConstOk fConst "y" (.fin 1) (.fin 0) (.fin 0) st0 = (st0, .invalidRange) :=
  c3_invalidRange_stops_before_integration solverConstOk fConst "y"
    (.fin 1) (.fin 0) (.fin 0) st0 (by decide)

/-- Every run of the orchestrator either leaves the state untouched or
reports success. -/
theorem resolver_state_cases (pyParse : String → Option PyExpr) (mi : MathIntp)
    (solver : SolverFun) (inp : Inputs) (st : SessionState) :
    (resolver_ecuacion pyParse mi solver inp st).1 = st ∨
    ∃ q, (resolver_ecuacion pyParse mi solver inp st).2 = Outcome.success q := by
  unfold resolver_ecuacion solveStage
  repeat' split
  all_goals simp

/-- Claim C2: every failing call of the orchestrator (missing field,
syntax error, non-numeric input, invalid range, solver exception or solver
failure — i.e. any outcome other than success) leaves the session state
unchanged, so a subsequent export returns exactly what it returned before
the failed call. -/
theorem c2_failure_preserves_state (pyParse : String → Option PyExpr) (mi : MathIntp)
    (solver : SolverFun) (inp : Inputs) (st : SessionState)
    (h : ∀ q, (resolver_ecuacion pyParse mi solver inp st).2 ≠ Outcome.success q) :
    (resolver_ecuacion pyParse mi solver inp st).1 = st ∧
    mostrar_grafica_externa (resolver_ecuacion pyParse mi solver inp st).1
      = mostrar_grafica_externa st := by
  rcases resolver_state_cases pyParse mi solver inp st with h1 | ⟨q, hq⟩
  · exact ⟨h1, by rw [h1]⟩
  · exact absurd hq (h q)

/-- Witness for C2 at a concrete failing call (`tf = 0 <= 1 = t0`). -/
theorem c2_witness :
    (resolver_ecuacion parseY miId solverConstOk ⟨"y", "1", "1", "0"⟩ st0).1 = st0 ∧
    mostrar_grafica_externa (resolver_ecuacion parseY miId solverConstOk ⟨"y", "1", "1", "0"⟩ st0).1
      = mostrar_grafica_externa st0 :=
  c2_failure_preserves_state parseY miId solverConstOk ⟨"y", "1", "1", "0"⟩ st0 (by
    intro q hq
    have hres : (resolver_ecuacion parseY miId solverConstOk ⟨"y", "1", "1", "0"⟩ st0).2
        = Outcome.invalidRange := by decide
    rw [hres] at hq
    exact Outcome.noConfusion hq)

/-- Claim C6 counterexample: with the malformed equation text `((` (on
which the CPython parser raises `SyntaxError`) and the non-empty,
non-numeric field `t0 = "abc"`, the orchestrator reports the syntax
failure, not the not-a-number failure the claim requires, because
compilation (lines 280-296) precedes numeric parsing (lines 298-305). -/
theorem c6_counterexample :
    resolver_ecuacion parseNone miId solverConstOk ⟨"((", "abc", "1", "2"⟩ st0
      = (st0, Outcome.malformedEquation) ∧
    pyFloatOfString "abc" = none ∧
    Outcome.malformedEquation ≠ Outcome.notANumber := by
  refine ⟨?_, by decide, by decide⟩
  unfold resolver_ecuacion
  rw [if_neg (by decide)]
  simp [parseNone, pyEvalLambda]

/-- Claim C6 as amended: the orchestrator fails with the missing-field
outcome if any field is empty; otherwise it first compiles the equation
(failing there on a syntax error), and only then fails with the
not-a-number outcome when one of `t0`, `y0`, `tf` does not parse as a
number; only otherwise does it proceed to range validation and solving. -/
theorem c6_amended_field_validation :
    (∀ (pyParse : String → Option PyExpr) (mi : MathIntp) (solver : SolverFun)
       (inp : Inputs) (st : SessionState),
      (inp.equation = "" ∨ inp.t0 = "" ∨ inp.y0 = "" ∨ inp.tf = "") →
      resolver_ecuacion pyParse mi solver inp st = (st, .missingFields)) ∧
    (∀ (pyParse : String → Option PyExpr) (mi : MathIntp) (solver : SolverFun)
       (inp : Inputs) (st : SessionState),
      inp.equation ≠ "" → inp.t0 ≠ "" → inp.y0 ≠ "" → inp.tf ≠ "" →
      pyParse (preparedText inp.equation) = none →
      resolver_ecuacion pyParse mi solver inp st = (st, .malformedEquation)) ∧
    (∀ (pyParse : String → Option PyExpr) (mi : MathIntp) (solver : SolverFun)
       (inp : Inputs) (st : SessionState) (b : PyExpr),
      inp.equation ≠ "" → inp.t0 ≠ "" → inp.y0 ≠ "" → inp.tf ≠ "" →
      pyParse (preparedText inp.equation) = some b →
      (pyFloatOfString inp.t0 = none ∨ pyFloatOfString inp.y0 = none ∨
        pyFloatOfString inp.tf = none) →
      resolver_ecuacion pyParse mi solver inp st = (st, .notANumber)) := by
  refine ⟨?_, ?_, ?_⟩
  · intro pyParse mi solver inp st h
    unfold resolver_ecuacion
    rw [if_pos h]
  · intro pyParse mi solver inp st h1 h2 h3 h4 hp
    unfold resolver_ecuacion
    rw [if_neg (by simp [h1, h2, h3, h4])]
    simp [hp, pyEvalLambda]
  · intro pyParse mi solver inp st b h1 h2 h3 h4 hp h6
    unfold resolver_ecuacion
    rw [if_neg (by simp [h1, h2, h3, h4])]
    simp only [hp, pyEvalLambda]
    cases hT : pyFloatOfString inp.t0 <;> cases hY : pyFloatOfString inp.y0 <;>
      cases hZ : pyFloatOfString inp.tf <;> simp_all

/-- Witness for the amended C6 at concrete inputs: an empty equation, a
malformed equation with numeric fields, and a well-formed equation with
the non-numeric field `t0 = "abc"`. -/
theorem c6_amended_witness :
    resolver_ecuacion parseY miId solverConstOk ⟨"", "1", "1", "2"⟩ st0
      = (st0, .missingFields) ∧
    resolver_ecuacion parseNone miId solverConstOk ⟨"((", "1", "1", "2"⟩ st0
      = (st0, .malformedEquation) ∧
    resolver_ecuacion parseY miId solverConstOk ⟨"y", "abc", "1", "2"⟩ st0
      = (st0, .notANumber) :=
  ⟨c6_amended_field_validation.1 parseY miId solverConstOk ⟨"", "1", "1", "2"⟩ st0
      (Or.inl rfl),
   c6_amended_field_validation.2.1 parseNone miId solverConstOk ⟨"((", "1", "1", "2"⟩ st0
      (by decide) (by decide) (by decide) (by decide) rfl,
   c6_amended_field_validation.2.2 parseY miId solverConstOk ⟨"y", "abc", "1", "2"⟩ st0
      (.name "y") (by decide) (by decide) (by decide) (by decide) rfl
      (Or.inl (by decide))⟩

/-- Claim C1 counterexample: the expression `ty` (pressing the `t` button
then the `y` button) contains an identifier outside
{t, y, sin, cos, exp, log}, yet the compile step accepts it — evaluating
`lambda t, y: ty` builds the closure without resolving `ty`, so no
UnknownSymbol-style rejection happens; moreover the compiled callable does
resolve the non-whitelisted name `abs` (a Python builtin auto-inserted
into the eval globals), computing `abs(-3) = 3`. -/
theorem c1_counterexample :
    (pyEvalLambda miId (some (.name "ty"))).isOk = true ∧
    evalBody miId 0 0 (.call (.name "abs") (.num (-3))) = .ok (.num 3) := by
  constructor
  · rfl
  · have h : evalBody miId 0 0 (.call (.name "abs") (.num (-3)))
        = Except.ok (PyVal.num (if (-3 : ℚ) < 0 then -(-3 : ℚ) else (-3 : ℚ))) := rfl
    rw [h]
    norm_num

/-- Claim C1 as amended: the compiler performs no identifier check at all —
evaluating `lambda t, y: body` succeeds for every well-formed body, even
one with identifiers outside the whitelist; a name that is neither a
parameter nor resolvable in the eval namespace raises `NameError` only
when the compiled callable is invoked; and the namespace is not limited to
the whitelist: Python builtins such as `abs` are resolvable. -/
theorem c1_amended_no_compile_time_whitelist :
    (∀ (mi : MathIntp) (b : PyExpr), (pyEvalLambda mi (some b)).isOk = true) ∧
    (∀ (mi : MathIntp) (n : String) (t y : ℚ),
      n ≠ "t" → n ≠ "y" → globalsLookup mi n = none →
      evalBody mi t y (.name n) = .error (.nameError n)) ∧
    (∀ (mi : MathIntp) (t y q : ℚ),
      evalBody mi t y (.call (.name "abs") (.num q))
        = .ok (.num (if q < 0 then -q else q))) := by
  refine ⟨fun mi b => rfl, ?_, fun mi t y q => rfl⟩
  intro mi n t y h1 h2 h3
  simp [evalBody, h1, h2, h3]

/-- Witness for the amended C1 at the concrete name `ty`, which is neither
a parameter nor in the eval namespace. -/
theorem c1_amended_witness :
    evalBody miId 5 7 (.name "ty") = .error (.nameError "ty") :=
  c1_amended_no_compile_time_whitelist.2.1 miId "ty" 5 7 (by decide) (by decide) rfl

/-- Claim C10: compilation never fails on an unknown identifier.  For
every well-formed body the `eval` of the lambda succeeds; consequently the
`except NameError` branch of the source (the `nameUndefined` outcome) is
unreachable for every run of the orchestrator; and when the integrator
invokes the compiled callable and the unresolvable name raises, the
exception propagates to the generic `except Exception` handler, which
reports it with the session state unchanged. -/
theorem c10_unknown_names_surface_at_call_time :
    (∀ (mi : MathIntp) (b : PyExpr), (pyEvalLambda mi (some b)).isOk = true) ∧
    (∀ (pyParse : String → Option PyExpr) (mi : MathIntp) (solver : SolverFun)
       (inp : Inputs) (st : SessionState) (m : String),
      (resolver_ecuacion pyParse mi solver inp st).2 ≠ Outcome.nameUndefined m) ∧
    (∀ (pyParse : String → Option PyExpr) (mi : MathIntp) (solver : SolverFun)
       (inp : Inputs) (st : SessionState) (b : PyExpr) (e : PyErr)
       (t0v y0v tfv : PyFloat),
      pyParse (preparedText inp.equation) = some b →
      pyFloatOfString inp.t0 = some t0v →
      pyFloatOfString inp.y0 = some y0v →
      pyFloatOfString inp.tf = some tfv →
      ¬(inp.equation = "" ∨ inp.t0 = "" ∨ inp.y0 = "" ∨ inp.tf = "") →
      pyLe tfv t0v = false →
      solver (mkCallable mi b) t0v y0v tfv = .error e →
      resolver_ecuacion pyParse mi solver inp st = (st, Outcome.excCaught e)) := by
  refine ⟨fun mi b => rfl, ?_, ?_⟩
  · intro pyParse mi solver inp st m
    cases hpp : pyParse (preparedText inp.equation) with
    | none =>
      simp only [resolver_ecuacion, hpp, pyEvalLambda]
      repeat' split
      all_goals simp [solveStage]
    | some b =>
      simp only [resolver_ecuacion, hpp, pyEvalLambda]
      repeat' split
      all_goals simp [solveStage]
      repeat' split
      all_goals simp
  · intro pyParse mi solver inp st b e t0v y0v tfv hpp ht0 hy0 htf hne hle hsolver
    unfold resolver_ecuacion
    rw [if_neg hne, hpp]
    simp only [pyEvalLambda]
    rw [ht0, hy0, htf]
    dsimp only
    simp [solveStage, hle, hsolver]

/-- Witness for C10 at the concrete expression `ty`: compilation succeeds,
the probing solver invokes the callable, the `NameError` it raises is
caught by the generic handler, and the state is unchanged. -/
theorem c10_witness :
    resolver_ecuacion parseTy miId solverProbe ⟨"ty", "0", "1", "2"⟩ st0
      = (st0, Outcome.excCaught (.nameError "ty")) :=
  c10_unknown_names_surface_at_call_time.2.2 parseTy miId solverProbe
    ⟨"ty", "0", "1", "2"⟩ st0 (.name "ty") (.nameError "ty")
    (.fin 0) (.fin 1) (.fin 2) rfl (by decide) (by decide) (by decide)
    (by decide) (by decide) rfl

/-- Claim C5 counterexample: with the non-finite `t0 = nan` (enterable as
the text `nan`, which `float` accepts), the solve stage does not fail with
any invalid-input error before integration — there is no finiteness check
in the source — and with a succeeding solver it reports success. -/
theorem c5_counterexample :
    (solveStage solverConstOk fConst "y" PyFloat.nan (.fin 1) (.fin 1) st0).2
      = Outcome.success 42 ∧
    pyFloatOfString "nan" = some PyFloat.nan := by
  exact ⟨rfl, by decide⟩

/-- Claim C5 as amended: the source performs no finiteness validation and
has no invalid-input error.  A nan bound never trips the range check
(IEEE comparisons with nan are false), so nan requests reach the
integrator and can even complete successfully; a `t0 = +inf` request is
instead rejected by the range check itself (as the invalid-range error),
since every non-nan `tf` satisfies `tf <= +inf`. -/
theorem c5_amended_no_finiteness_check :
    (∀ x, pyLe x PyFloat.nan = false ∧ pyLe PyFloat.nan x = false) ∧
    (∀ (solver : SolverFun) (f : ℚ → ℚ → Except PyErr PyVal) (eqText : String)
       (y0v : PyFloat) (st : SessionState) (r : IvpResult),
      solver f PyFloat.nan y0v (.fin 1) = .ok r → r.success = true →
      solveStage solver f eqText PyFloat.nan y0v (.fin 1) st
        = (⟨some r, ⟨PyFloat.nan, .fin 1, eqText⟩⟩, Outcome.success r.yFinal)) ∧
    (∀ (solver : SolverFun) (f : ℚ → ℚ → Except PyErr PyVal) (eqText : String)
       (y0v tfv : PyFloat) (st : SessionState), tfv ≠ PyFloat.nan →
      solveStage solver f eqText (.inf true) y0v tfv st = (st, Outcome.invalidRange)) := by
  refine ⟨?_, ?_, ?_⟩
  · intro x
    cases x <;> simp [pyLe]
  · intro solver f eqText y0v st r hsol hsucc
    have h1 : pyLe (PyFloat.fin 1) PyFloat.nan = false := rfl
    simp [solveStage, h1, hsol, hsucc]
  · intro solver f eqText y0v tfv st htf
    have h1 : pyLe tfv (PyFloat.inf true) = true := by
      cases tfv with
      | fin q => rfl
      | inf p => simp [pyLe]
      | nan => exact absurd rfl htf
    simp [solveStage, h1]

/-- Witness for the amended C5: a concrete nan request that passes the
range check and succeeds. -/
theorem c5_amended_witness :
    solveStage solverConstOk fConst "y" PyFloat.nan (.fin 1) (.fin 1) st0
      = (⟨some ivpOkConst, ⟨PyFloat.nan, .fin 1, "y"⟩⟩, Outcome.success ivpOkConst.yFinal) :=
  c5_amended_no_finiteness_check.2.1 solverConstOk fConst "y" (.fin 1) st0 ivpOkConst rfl rfl

set_option maxRecDepth 10000 in
/-- Claim C4 counterexample: the template keeps its two script elements
balanced for a benign equation text, but the equation text `</script>` is
spliced in unescaped and produces a document with three close tags for two
open tags — the generated document is not well-formed for every equation
string. -/
theorem c4_counterexample :
    specScriptBalanced (chartPayload "y - t" "[0]" "[0]") = true ∧
    specScriptBalanced (chartPayload "</script>" "[0]" "[0]") = false := by
  exact ⟨by decide, by decide⟩

/-- Claim C4 as amended: the chart payload receives the equation text and
the serialized sample lists verbatim — each appears as a contiguous
substring of the document, with no escaping applied — so equation text
containing markup can break the payload, while text over the calculator
button alphabet (which contains no `<`) cannot. -/
theorem c4_amended_verbatim_no_escaping :
    ∀ e l d : String,
      (∃ u v, (chartPayload e l d).data = u ++ (e.data ++ v)) ∧
      (∃ u v, (chartPayload e l d).data = u ++ (l.data ++ v)) ∧
      (∃ u v, (chartPayload e l d).data = u ++ (d.data ++ v)) := by
  intro e l d
  refine ⟨⟨chartA.data, (chartB ++ l ++ chartC ++ d ++ chartD).data, ?_⟩,
          ⟨(chartA ++ e ++ chartB).data, (chartC ++ d ++ chartD).data, ?_⟩,
          ⟨(chartA ++ e ++ chartB ++ l ++ chartC).data, chartD.data, ?_⟩⟩ <;>
    simp [chartPayload, String.data_append, List.append_assoc]

/-- On a finite interval the numpy grid is exactly the uniform rational
grid (the forced last entry coincides with the formula value). -/
theorem pyLinspace_fin (a b : ℚ) (n : ℕ) (hn : 2 ≤ n) :
    pyLinspace (.fin a) (.fin b) n
      = (List.range n).map
          (fun (i : ℕ) => PyFloat.fin ((i : ℚ) * ((b - a) / ((n : ℚ) - 1)) + a)) := by
  have hn0 : ¬ n = 0 := by omega
  have hn1 : ¬ n = 1 := by omega
  have h2q : (2 : ℚ) ≤ (n : ℚ) := by exact_mod_cast hn
  have hq : ((n : ℚ) - 1) ≠ 0 := by linarith
  unfold pyLinspace
  rw [if_neg hn0, if_neg hn1]
  have hstep : pyDiv (pySub (.fin b) (.fin a)) (.fin ((n : ℚ) - 1))
      = PyFloat.fin ((b - a) / ((n : ℚ) - 1)) := by
    simp [pySub, pyDiv, hq]
  rw [hstep]
  apply List.ext_getElem
  · simp
  · intro i h1 h2
    simp only [List.length_set, List.length_map, List.length_range] at h1 h2
    rw [List.getElem_set]
    by_cases hcase : n - 1 = i
    · rw [if_pos hcase]
      subst hcase
      rw [List.getElem_map, List.getElem_range]
      have hc : ((n - 1 : ℕ) : ℚ) = (n : ℚ) - 1 := by
        push_cast [Nat.cast_sub (by omega : 1 ≤ n)]
        ring
      rw [hc]
      have : ((n : ℚ) - 1) * ((b - a) / ((n : ℚ) - 1)) + a = b := by
        field_simp
      rw [this]
    · rw [if_neg hcase]
      rw [List.getElem_map, List.getElem_range, List.getElem_map, List.getElem_range]
      simp [pyAdd, pyMul]

/-- The 500-point grid of the source on a finite interval. -/
theorem pyLinspace_fin_500 (a b : ℚ) :
    pyLinspace (.fin a) (.fin b) 500
      = (List.range 500).map (fun (i : ℕ) => PyFloat.fin ((i : ℚ) * ((b - a) / 499) + a)) := by
  rw [pyLinspace_fin a b 500 (by norm_num)]
  congr 1
  funext i
  norm_num

/-- Claim C7: for every successful solution over a finite interval
`[t0, tf]` with `t0 < tf`, the 500-point sampling of the source is exactly
the inclusive uniform grid, evenly spaced, strictly increasing, with both
endpoints present and each t-value paired with the dense solution at it. -/
theorem c7_sample_uniform_grid (f : PyFloat → PyFloat) (a b : ℚ) (h : a < b) :
    C7Prop f a b := by
  have h499 : (499 : ℚ) ≠ 0 := by norm_num
  have hs : sample f (.fin a) (.fin b) 500
      = (List.range 500).map
          (fun (i : ℕ) => (PyFloat.fin ((i : ℚ) * ((b - a) / 499) + a),
                     f (PyFloat.fin ((i : ℚ) * ((b - a) / 499) + a)))) := by
    unfold sample
    rw [pyLinspace_fin_500, List.map_map]
    rfl
  refine ⟨?_, ?_, ?_, ?_, ?_, ?_, ?_⟩
  · rw [hs]; simp
  · rw [hs, List.map_map]; rfl
  · rw [hs, List.getElem?_map, List.getElem?_range (by norm_num : 0 < 500)]
    have h0 : ((0 : ℕ) : ℚ) * ((b - a) / 499) + a = a := by norm_num
    simp [h0]
  · rw [hs, List.getElem?_map, List.getElem?_range (by norm_num : 499 < 500)]
    have hb : (499 : ℚ) * ((b - a) / 499) + a = b := by
      field_simp
    simp [hb]
  · intro i hi
    rw [hs, List.getElem?_map, List.getElem?_map,
        List.getElem?_range hi, List.getElem?_range (by omega : i < 500)]
    simp [pyAdd]
    ring
  · rw [hs, List.pairwise_map]
    refine (List.pairwise_lt_range 500).imp ?_
    intro i j hij
    have hd : 0 < (b - a) / 499 := div_pos (by linarith) (by norm_num)
    have hij' : (i : ℚ) < (j : ℚ) := by exact_mod_cast hij
    simp only [pyLt, decide_eq_true_eq]
    exact add_lt_add_right (mul_lt_mul_of_pos_right hij' hd) a
  · intro p hp
    rw [hs] at hp
    simp only [List.mem_map, List.mem_range] at hp
    obtain ⟨i, _, rfl⟩ := hp
    rfl

/-- Witness for C7 on the concrete interval `[0, 1]` with the identity
dense solution. -/
theorem c7_witness : C7Prop (fun tv => tv) 0 1 :=
  c7_sample_uniform_grid (fun tv => tv) 0 1 (by norm_num)

/-- Claim C8: sampling is deterministic and mutation-free — the sampling
step returns the session state unchanged, a second sampling of the
unchanged state yields the identical sequence, and the sample of a given
dense solution, bounds and count is a fixed value (the embedding is pure
because the source lines 145-146 only read `current_solution` and
`solution_params` and assign nothing). -/
theorem c8_sampling_idempotent : ∀ (st : SessionState) (n : ℕ),
    (sampleST st n).2 = st ∧
    (sampleST ((sampleST st n).2) n).1 = (sampleST st n).1 ∧
    (∀ (g : PyFloat → PyFloat) (t0v tfv : PyFloat),
      sample g t0v tfv n = sample g t0v tfv n) := by
  intro st n
  exact ⟨rfl, rfl, fun _ _ _ => rfl⟩
